import Mathlib

/-!
Shallow embedding of `amazon-test.ts`: a WebdriverIO orchestration script
that starts a ChromeDriver subprocess, opens a browser session, navigates
to a page, locates a search-bar element by trying an ordered list of CSS
selectors, inspects it, and tears everything down.

The environment (subprocess spawning, the wire protocol, the remote DOM)
is modelled by a `World` of oracles: for each remote operation the oracle
says whether the corresponding awaited promise resolves or rejects, and
what value it yields.  Each embedded function returns the list of
observable actions it performed (an event trace) alongside its result, so
that claims about "X is attempted / never attempted" become claims about
trace membership.
-/

set_option autoImplicit false

deriving instance DecidableEq for Except

namespace AmazonTest

/-- Observable actions of the script, in the order they are awaited. -/
inductive Event where
  /-- `start(['--port=9515'])` is invoked inside `startChromeDriver`. -/
  | startCall : Event
  /-- `process.kill(chromedriverProcess.pid)` is invoked inside `stopChromeDriver`. -/
  | killSignal : Nat → Event
  /-- `stopChromeDriver()` itself is invoked. -/
  | stopCall : Event
  /-- `remote(options)` is invoked to open the browser session. -/
  | remoteInit : Event
  /-- `browser.url(u)` is invoked. -/
  | navigate : String → Event
  /-- `browser.pause(ms)` / the `setTimeout` settle delay. -/
  | pause : Nat → Event
  /-- The `#nav-main` popup/page-structure probe block runs. -/
  | popupCheck : Event
  /-- The `for` loop enters the iteration for this selector
      (the `Trying selector: ...` log line). -/
  | tryStrategy : String → Event
  /-- `browser.$(selector)` is invoked for this selector. -/
  | acquire : String → Event
  /-- `searchBar.waitForExist({ timeout: 10000 })` is invoked. -/
  | waitExist : String → Event
  /-- `browser.execute(scrollIntoView, searchBar)` is invoked. -/
  | scrollStep : String → Event
  /-- The final `searchBar.isExisting()` re-check is invoked. -/
  | recheck : String → Event
  /-- The `searchBar.isDisplayed()` visibility probe block runs. -/
  | visCheck : Event
  /-- `searchBar.getAttribute(name)` is invoked. -/
  | attrRead : String → Event
  /-- `browser.deleteSession()` is invoked in the `finally` block. -/
  | deleteSession : Event
  deriving DecidableEq, Repr

/-- The distinct throw sites of the script (the error taxonomy of a run). -/
inductive Err where
  /-- `start` rejected inside `startChromeDriver` (re-thrown). -/
  | serverStart : Err
  /-- `remote(options)` rejected (or the `!browser` guard fired). -/
  | sessionOpen : Err
  /-- `browser.url(...)` rejected. -/
  | navigation : Err
  /-- `throw new Error('Search bar element not found on the page')`. -/
  | elementNotFound : Err
  /-- `browser.deleteSession()` rejected inside the `finally` block. -/
  | sessionClose : Err
  deriving DecidableEq, Repr

/-- Environment oracles: for each awaited remote operation, whether the
promise resolves (`...Ok`) and what value it yields.  Per-selector oracles
are functions from the selector string. -/
structure World where
  /-- `start(['--port=9515'])` resolves. -/
  startOk : Bool
  /-- `pid` of the resolved ChromeDriver process object. -/
  pid : Nat
  /-- `remote(options)` resolves (to a truthy browser object). -/
  remoteOk : Bool
  /-- `browser.url('https://www.amazon.com')` resolves. -/
  navOk : Bool
  /-- `browser.$(selector)` resolves for this selector. -/
  acquireOk : String → Bool
  /-- `waitForExist({ timeout: 10000 })` resolves (element appeared in time). -/
  waitForExistOk : String → Bool
  /-- The `scrollIntoView` `browser.execute` call resolves. -/
  scrollOk : String → Bool
  /-- The `browser.pause(1000)` settle call resolves. -/
  settleOk : String → Bool
  /-- The final `isExisting()` call resolves (does not throw). -/
  isExistingOk : String → Bool
  /-- Value of the final `isExisting()` call. -/
  isExisting : String → Bool
  /-- `getAttribute(name)` resolves for this attribute name. -/
  attrReadOk : String → Bool
  /-- Value of `getAttribute(name)`: `none` models the JS `null` for a
      missing attribute, `some s` a present (possibly empty) string. -/
  attrVal : String → Option String
  /-- `browser.deleteSession()` resolves. -/
  deleteSessionOk : Bool

/-- The URL passed to `browser.url`. -/
def amazonUrl : String := "https://www.amazon.com"

/-- The ordered fallback selector list of the script (lines 112-118). -/
def selectors : List String :=
  ["#twotabsearchtextbox",
   "[name=\"field-keywords\"]",
   "input[type=\"text\"][name*=\"search\"]",
   "input#twotabsearchtextbox",
   "#nav-search-input"]

/-- `startChromeDriver()`: sets the module-level `chromedriverProcess` on
success and then awaits a fixed 1000 ms settle delay; on rejection of
`start` the error is logged and re-thrown and the process variable is left
unchanged (`none`).  Returns (trace, new `chromedriverProcess`, success). -/
def startChromeDriver (w : World) : List Event × Option Nat × Bool :=
  if w.startOk then
    ([Event.startCall, Event.pause 1000], some w.pid, true)
  else
    ([Event.startCall], none, false)

/-- `stopChromeDriver()`: if `chromedriverProcess` is non-null, sends
`process.kill(pid)`; any error from `kill` is caught and logged, never
re-thrown.  Note the source never resets `chromedriverProcess` to null, so
the state is returned unchanged.  Returns (trace, new `chromedriverProcess`). -/
def stopChromeDriver (st : Option Nat) : List Event × Option Nat :=
  match st with
  | none => ([Event.stopCall], none)
  | some pid => ([Event.stopCall, Event.killSignal pid], some pid)

/-- The remote calls awaited inside one iteration of the selector loop,
after the `Trying selector` log: `browser.$`, then (while each previous
call resolved) `waitForExist`, the scroll `execute`, `pause(1000)`, and
the `isExisting()` re-check.  The first rejection ends the iteration (the
`catch` block), so later calls of the iteration are not awaited. -/
def stepEvents (w : World) (sel : String) : List Event :=
  [Event.acquire sel] ++
  (if w.acquireOk sel then [Event.waitExist sel] else []) ++
  (if w.acquireOk sel && w.waitForExistOk sel then [Event.scrollStep sel] else []) ++
  (if w.acquireOk sel && w.waitForExistOk sel && w.scrollOk sel then
    [Event.pause 1000] else []) ++
  (if w.acquireOk sel && w.waitForExistOk sel && w.scrollOk sel && w.settleOk sel then
    [Event.recheck sel] else [])

/-- Outcome of one iteration of the selector loop: `some sel` exactly when
every awaited call of the iteration resolved and the final `isExisting()`
returned `true` (the `break` case, `searchBarFound = true`); `none` when
some call rejected (the `catch`/`continue` case) or the re-check returned
`false` (fall through to the next iteration). -/
def attemptOutcome (w : World) (sel : String) : Option String :=
  if w.acquireOk sel && w.waitForExistOk sel && w.scrollOk sel && w.settleOk sel &&
     w.isExistingOk sel && w.isExisting sel
  then some sel else none

/-- The selector `for` loop (lines 120-148): iterate the selectors in
order; the first iteration whose `attemptOutcome` is `some` breaks the
loop with that element; otherwise continue with the rest. -/
def findSearchBar (w : World) : List String → List Event × Option String
  | [] => ([], none)
  | sel :: rest =>
    match attemptOutcome w sel with
    | some el => (Event.tryStrategy sel :: stepEvents w sel, some el)
    | none =>
      let r := findSearchBar w rest
      (Event.tryStrategy sel :: (stepEvents w sel ++ r.1), r.2)

/-- The JS expression `v || d` applied to an attribute value: `null` and
the empty string are both falsy, so both fall back to `d`. -/
def jsOr (v : Option String) (d : String) : String :=
  match v with
  | none => d
  | some s => if s = "" then d else s

/-- The three console-reported attribute strings, in the order they are
logged: ID, name, placeholder, each rendered with `|| 'N/A'`. -/
structure AttrReport where
  reportedId : String
  reportedName : String
  reportedPlaceholder : String
  deriving DecidableEq, Repr

/-- The attribute try-block (lines 166-176): `getAttribute('placeholder')`,
then `'id'`, then `'name'`; the first rejection aborts the block (later
reads are not awaited) and is caught, yielding no report; on full success
the three values are logged through `|| 'N/A'`. -/
def readAttrs (w : World) : List Event × Option AttrReport :=
  if w.attrReadOk "placeholder" then
    if w.attrReadOk "id" then
      if w.attrReadOk "name" then
        ([Event.attrRead "placeholder", Event.attrRead "id", Event.attrRead "name"],
         some ⟨jsOr (w.attrVal "id") "N/A",
               jsOr (w.attrVal "name") "N/A",
               jsOr (w.attrVal "placeholder") "N/A"⟩)
      else
        ([Event.attrRead "placeholder", Event.attrRead "id", Event.attrRead "name"], none)
    else
      ([Event.attrRead "placeholder", Event.attrRead "id"], none)
  else
    ([Event.attrRead "placeholder"], none)

/-- Payload of a successful run: the selector that was confirmed and, when
the attribute block succeeded, the reported attribute strings. -/
structure SuccessReport where
  element : String
  attrs : Option AttrReport
  deriving DecidableEq, Repr

/-- The `try` body of `testAmazonSearchBar` (lines 72-182): start
ChromeDriver, open the session (`remote`), navigate, `pause(3000)`, the
popup probe, the selector loop, the element-not-found guard, the
visibility probe, the attribute block, and the 30 s observation hold.
Returns (trace, `chromedriverProcess`, whether `browser` was assigned,
result).  The `if (!browser)` guard never fires when `remote` resolves,
since `remote` resolves to a truthy object. -/
def runBody (w : World) : List Event × Option Nat × Bool × Except Err SuccessReport :=
  let s := startChromeDriver w
  if s.2.2 then
    if w.remoteOk then
      if w.navOk then
        let ev1 := s.1 ++ [Event.remoteInit, Event.navigate amazonUrl,
                           Event.pause 3000, Event.popupCheck]
        let f := findSearchBar w selectors
        match f.2 with
        | none =>
          (ev1 ++ f.1, s.2.1, true, Except.error Err.elementNotFound)
        | some el =>
          let ra := readAttrs w
          (ev1 ++ f.1 ++ [Event.visCheck] ++ ra.1 ++ [Event.pause 30000],
           s.2.1, true, Except.ok ⟨el, ra.2⟩)
      else
        (s.1 ++ [Event.remoteInit, Event.navigate amazonUrl], s.2.1, true,
         Except.error Err.navigation)
    else
      (s.1 ++ [Event.remoteInit], s.2.1, false, Except.error Err.sessionOpen)
  else
    (s.1, s.2.1, false, Except.error Err.serverStart)

/-- The `finally` block (lines 186-194): if `browser` was assigned, await
`browser.deleteSession()` — this await is NOT wrapped in a try/catch, so
if it rejects the `finally` block aborts there: `stopChromeDriver()` is
not reached and the rejection becomes the block's error.  Otherwise
`stopChromeDriver()` runs (and never throws).  Returns
(trace, new `chromedriverProcess`, error raised by the block, if any). -/
def runCleanup (w : World) (st : Option Nat) (browserOpened : Bool) :
    List Event × Option Nat × Option Err :=
  if browserOpened then
    if w.deleteSessionOk then
      let r := stopChromeDriver st
      (Event.deleteSession :: r.1, r.2, none)
    else
      ([Event.deleteSession], st, some Err.sessionClose)
  else
    let r := stopChromeDriver st
    (r.1, r.2, none)

/-- `testAmazonSearchBar()` as a whole: the `try` body, the `catch` (which
logs and re-throws the same error), and the `finally`.  Per JS semantics,
an error thrown inside the `finally` block supersedes the body's result
(normal or thrown) as the function's outcome. -/
def testAmazonSearchBar (w : World) : List Event × Option Nat × Except Err SuccessReport :=
  let b := runBody w
  let c := runCleanup w b.2.1 b.2.2.1
  match c.2.2 with
  | some e => (b.1 ++ c.1, c.2.1, Except.error e)
  | none => (b.1 ++ c.1, c.2.1, b.2.2.2)

/-- The trailing `.then(process.exit(0)).catch(process.exit(1))`
(lines 198-206): the process completion signal of the run. -/
def exitCode (w : World) : Nat :=
  match (testAmazonSearchBar w).2.2 with
  | Except.ok _ => 0
  | Except.error _ => 1

/-- The selectors for which the loop entered an iteration, in order,
read off an event trace. -/
def triedOf (tr : List Event) : List String :=
  tr.filterMap (fun e =>
    match e with
    | Event.tryStrategy s => some s
    | _ => none)

/-! ### Concrete worlds used in witnesses and counterexamples -/

/-- A run in which every remote operation resolves, every selector's
element exists, and every attribute has the value `"val"`. -/
def allOkWorld : World where
  startOk := true
  pid := 77
  remoteOk := true
  navOk := true
  acquireOk := fun _ => true
  waitForExistOk := fun _ => true
  scrollOk := fun _ => true
  settleOk := fun _ => true
  isExistingOk := fun _ => true
  isExisting := fun _ => true
  attrReadOk := fun _ => true
  attrVal := fun _ => some "val"
  deleteSessionOk := true

/-- Navigation rejects and, later, `deleteSession` also rejects. -/
def wCleanupFail : World :=
  { allOkWorld with navOk := false, deleteSessionOk := false }

/-- The element exists for every selector except `"#a"`. -/
def wC2 : World :=
  { allOkWorld with isExisting := fun s => !(s == "#a") }

/-- Every element exists, but the scroll command rejects for `"#a"`. -/
def wC3 : World :=
  { allOkWorld with scrollOk := fun s => !(s == "#a") }

/-- Element found; the `id` attribute is present but the empty string. -/
def wC4e : World :=
  { allOkWorld with attrVal := fun a => if a == "id" then some "" else some "val" }

/-- Element found; the `id` attribute is missing (`null`). -/
def wC4m : World :=
  { allOkWorld with attrVal := fun a => if a == "id" then none else some "val" }

/-- Element found; the `placeholder` attribute read rejects. -/
def wC4f : World :=
  { allOkWorld with attrReadOk := fun a => !(a == "placeholder") }

/-- Every remote call resolves but no selector's element ever exists. -/
def wC6 : World :=
  { allOkWorld with isExisting := fun _ => false }

/-- `browser.$` rejects for the selector `"#a"` (e.g. rejected syntax). -/
def wC7 : World :=
  { allOkWorld with acquireOk := fun s => !(s == "#a") }

/-- `start` rejects: the ChromeDriver subprocess cannot be spawned. -/
def wC8 : World :=
  { allOkWorld with startOk := false }

/-! ### Helper lemmas -/

theorem tryStrategy_not_mem_stepEvents (w : World) (s t : String) :
    Event.tryStrategy t ∉ stepEvents w s := by
  simp only [stepEvents, List.mem_append, List.mem_singleton]
  intro h
  rcases h with ((((h | h) | h) | h) | h) <;>
    first
      | exact Event.noConfusion h
      | (split at h <;> simp_all)

theorem count_tryStrategy_stepEvents (w : World) (s t : String) :
    List.count (Event.tryStrategy t) (stepEvents w s) = 0 :=
  List.count_eq_zero.mpr (tryStrategy_not_mem_stepEvents w s t)

theorem findSearchBar_cons_none (w : World) (sel : String) (rest : List String)
    (h : attemptOutcome w sel = none) :
    findSearchBar w (sel :: rest) =
      (Event.tryStrategy sel :: (stepEvents w sel ++ (findSearchBar w rest).1),
       (findSearchBar w rest).2) := by
  simp [findSearchBar, h]

theorem findSearchBar_cons_some (w : World) (sel el : String) (rest : List String)
    (h : attemptOutcome w sel = some el) :
    findSearchBar w (sel :: rest) =
      (Event.tryStrategy sel :: stepEvents w sel, some el) := by
  simp [findSearchBar, h]

theorem triedOf_append (a b : List Event) : triedOf (a ++ b) = triedOf a ++ triedOf b :=
  List.filterMap_append a b _

theorem triedOf_stepEvents (w : World) (s : String) : triedOf (stepEvents w s) = [] := by
  simp only [stepEvents, triedOf, List.filterMap_append]
  split <;> split <;> split <;> split <;> simp

theorem triedOf_findSearchBar_all_none (w : World) (sels : List String)
    (h : ∀ s ∈ sels, attemptOutcome w s = none) :
    triedOf (findSearchBar w sels).1 = sels ∧ (findSearchBar w sels).2 = none := by
  induction sels with
  | nil => simp [findSearchBar, triedOf]
  | cons sel rest ih =>
    have hsel : attemptOutcome w sel = none := h sel (List.mem_cons_self sel rest)
    have hrest := ih (fun s hs => h s (List.mem_cons_of_mem sel hs))
    rw [findSearchBar_cons_none w sel rest hsel]
    refine ⟨?_, hrest.2⟩
    simp only [triedOf, List.filterMap_cons, List.filterMap_append]
    have h1 : triedOf (stepEvents w sel) = [] := triedOf_stepEvents w sel
    simp only [triedOf] at h1 hrest
    simp [h1, hrest.1]

theorem attemptOutcome_none_of_step_failure (w : World) (sel : String)
    (h : w.acquireOk sel = false ∨ w.waitForExistOk sel = false ∨
         w.scrollOk sel = false ∨ w.settleOk sel = false ∨ w.isExistingOk sel = false) :
    attemptOutcome w sel = none := by
  rcases h with h | h | h | h | h <;> simp [attemptOutcome, h]

theorem testAmazonSearchBar_trace (w : World) :
    (testAmazonSearchBar w).1 =
      (runBody w).1 ++ (runCleanup w (runBody w).2.1 (runBody w).2.2.1).1 := by
  cases h : (runCleanup w (runBody w).2.1 (runBody w).2.2.1).2.2 <;>
    simp [testAmazonSearchBar, h]

/-! ### Claims -/

/-- C1: the spec demands that after any failure, session close (if a
session was opened) and then server stop are both attempted, and that a
cleanup failure never replaces the original failure as the reported
outcome.  The code violates this: `browser.deleteSession()` in the
`finally` block is not guarded, so when it rejects (here: after a
navigation failure), `stopChromeDriver` is never invoked and the
session-close error, not the navigation error, becomes the reported
outcome. -/
theorem c1_cleanup_chain_code_bug :
    (testAmazonSearchBar wCleanupFail).2.2 = Except.error Err.sessionClose ∧
    (testAmazonSearchBar wCleanupFail).2.2 ≠ Except.error Err.navigation ∧
    Event.deleteSession ∈ (testAmazonSearchBar wCleanupFail).1 ∧
    Event.stopCall ∉ (testAmazonSearchBar wCleanupFail).1 ∧
    exitCode wCleanupFail = 1 := by
  decide

/-- C5 (counterexample): `stopChromeDriver` is not idempotent as claimed —
because the source never resets `chromedriverProcess` to null, a second
consecutive call sends `process.kill` to the subprocess again: two calls
from a started state emit two kill signals, and the handle still holds
the pid afterwards. -/
theorem c5_counterexample :
    List.count (Event.killSignal 77)
        ((stopChromeDriver (some 77)).1 ++
          (stopChromeDriver (stopChromeDriver (some 77)).2).1) = 2 ∧
    (stopChromeDriver (some 77)).2 = some 77 := by
  decide

/-- C5 (amended): `stopChromeDriver` never throws (kill errors are caught
and only logged) and is a no-op on a handle that never reached the running
state (no kill signal is sent); but the process handle is not cleared on
stop, so every call on a started handle — including a repeated one —
sends the termination signal again. -/
theorem c5_stop_not_cleared :
    (∀ pid : Nat, stopChromeDriver (some pid) =
        ([Event.stopCall, Event.killSignal pid], some pid)) ∧
    stopChromeDriver none = ([Event.stopCall], none) :=
  ⟨fun _ => rfl, rfl⟩

/-- C8: if server start throws, the run reports the server-start failure,
session close is never attempted (no session existed), the server-stop
routine is still invoked (and, the process never having started, sends no
kill signal), and the process exits with code 1. -/
theorem c8_server_start_failure (w : World) (h : w.startOk = false) :
    (testAmazonSearchBar w).2.2 = Except.error Err.serverStart ∧
    Event.deleteSession ∉ (testAmazonSearchBar w).1 ∧
    Event.stopCall ∈ (testAmazonSearchBar w).1 ∧
    (∀ p : Nat, Event.killSignal p ∉ (testAmazonSearchBar w).1) ∧
    exitCode w = 1 := by
  simp [testAmazonSearchBar, runBody, runCleanup, startChromeDriver, stopChromeDriver,
    exitCode, h]

/-- C8 witness: a concrete world whose `start` call rejects. -/
theorem c8_server_start_failure_witness :
    (testAmazonSearchBar wC8).2.2 = Except.error Err.serverStart ∧
    Event.deleteSession ∉ (testAmazonSearchBar wC8).1 ∧
    Event.stopCall ∈ (testAmazonSearchBar wC8).1 ∧
    (∀ p : Nat, Event.killSignal p ∉ (testAmazonSearchBar wC8).1) ∧
    exitCode wC8 = 1 :=
  c8_server_start_failure wC8 rfl

/-- C9: every run yields exactly one outcome value, and the process
completion signal is 0 exactly when that outcome is a success and 1
exactly when it is a failure. -/
theorem c9_exit_code_maps_outcome (w : World) :
    (exitCode w = 0 ∨ exitCode w = 1) ∧
    (exitCode w = 0 ↔ ∃ r, (testAmazonSearchBar w).2.2 = Except.ok r) ∧
    (exitCode w = 1 ↔ ∃ e, (testAmazonSearchBar w).2.2 = Except.error e) := by
  unfold exitCode
  cases h : (testAmazonSearchBar w).2.2 <;> simp [h]

/-- C2: for every strategy list in which some strategy yields an existing
element, `findSearchBar` returns the element of the first such strategy in
list order (every strategy before it having failed), the run over the list
is literally identical to the run over the list truncated after that
strategy, and the attempted selectors are exactly the failing ones
followed by the winning one — no later strategy is ever attempted. -/
theorem c2_first_success_wins (w : World) (pre post : List String) (sel el : String)
    (hpre : ∀ s ∈ pre, attemptOutcome w s = none)
    (hsel : attemptOutcome w sel = some el) :
    findSearchBar w (pre ++ sel :: post) = findSearchBar w (pre ++ [sel]) ∧
    (findSearchBar w (pre ++ sel :: post)).2 = some el ∧
    triedOf (findSearchBar w (pre ++ sel :: post)).1 = pre ++ [sel] := by
  induction pre with
  | nil =>
    simp only [List.nil_append]
    rw [findSearchBar_cons_some w sel el post hsel,
        findSearchBar_cons_some w sel el [] hsel]
    have h1 := triedOf_stepEvents w sel
    refine ⟨rfl, rfl, ?_⟩
    simp only [triedOf, List.filterMap_cons] at h1 ⊢
    simp [h1]
  | cons p pre ih =>
    have hp : attemptOutcome w p = none := hpre p (List.mem_cons_self p pre)
    have ih' := ih (fun s hs => hpre s (List.mem_cons_of_mem p hs))
    simp only [List.cons_append]
    rw [findSearchBar_cons_none w p (pre ++ sel :: post) hp,
        findSearchBar_cons_none w p (pre ++ [sel]) hp]
    refine ⟨?_, ih'.2.1, ?_⟩
    · rw [ih'.1]
    · have h1 := triedOf_stepEvents w p
      have h2 := ih'.2.2
      simp only [triedOf, List.filterMap_cons, List.filterMap_append] at h1 h2 ⊢
      simp [h1, h2]

/-- C2 witness: with `"#a"` failing (its element never exists) and both
`"#b"` and `"#c"` succeeding, `findSearchBar` confirms `"#b"` and never
attempts `"#c"`. -/
theorem c2_first_success_wins_witness :
    (findSearchBar wC2 (["#a"] ++ "#b" :: ["#c"])).2 = some "#b" ∧
    triedOf (findSearchBar wC2 (["#a"] ++ "#b" :: ["#c"])).1 = ["#a"] ++ ["#b"] :=
  ⟨(c2_first_success_wins wC2 ["#a"] ["#c"] "#b" "#b" (by decide) (by decide)).2.1,
   (c2_first_success_wins wC2 ["#a"] ["#c"] "#b" "#b" (by decide) (by decide)).2.2⟩

/-- C3 (counterexample): the claim that a scroll failure is non-fatal to
the strategy is false.  In `wC3` the element of `"#a"` exists (its
existence wait succeeds), but the scroll command rejects; the rejection is
caught by the per-strategy `catch`, so `"#a"` is abandoned and the find
returns the element of `"#b"`, not that of `"#a"`. -/
theorem c3_counterexample :
    wC3.waitForExistOk "#a" = true ∧ wC3.isExisting "#a" = true ∧
    wC3.scrollOk "#a" = false ∧
    (findSearchBar wC3 ["#a", "#b"]).2 = some "#b" ∧
    (findSearchBar wC3 ["#a", "#b"]).2 ≠ some "#a" := by
  decide

/-- C3 (amended): for a strategy whose element is found to exist, a
failure of the scroll-into-viewport step or of the settle pause is fatal
to that strategy — it is abandoned and the next strategy in order is
attempted — but it never aborts the whole locate operation: the find over
the remaining strategies proceeds unchanged. -/
theorem c3_scroll_failure_abandons_strategy (w : World) (sel : String) (rest : List String)
    (hexist : w.waitForExistOk sel = true)
    (hfail : w.scrollOk sel = false ∨ w.settleOk sel = false) :
    attemptOutcome w sel = none ∧
    (findSearchBar w (sel :: rest)).2 = (findSearchBar w rest).2 := by
  have h0 : attemptOutcome w sel = none := by
    rcases hfail with h | h <;> simp [attemptOutcome, h]
  exact ⟨h0, by rw [findSearchBar_cons_none w sel rest h0]⟩

/-- C3 witness: the amended behaviour at the concrete world `wC3`. -/
theorem c3_scroll_failure_abandons_strategy_witness :
    attemptOutcome wC3 "#a" = none ∧
    (findSearchBar wC3 ["#a", "#b"]).2 = (findSearchBar wC3 ["#b"]).2 :=
  c3_scroll_failure_abandons_strategy wC3 "#a" ["#b"] (by decide) (Or.inl (by decide))

/-- C4 (counterexample): the claim that a missing attribute value is
represented distinctly from an empty-string value is false for the
reported representation.  The raw values differ (`some ""` vs `none`,
mirroring `''` vs `null`), but the report renders both through
`value || 'N/A'`, and the empty string is falsy in JS, so two runs whose
`id` attribute is empty resp. missing produce identical outcomes, both
reporting `"N/A"`. -/
theorem c4_counterexample :
    wC4e.attrVal "id" = some "" ∧ wC4m.attrVal "id" = none ∧
    (some "" : Option String) ≠ none ∧
    (testAmazonSearchBar wC4e).2.2 = (testAmazonSearchBar wC4m).2.2 ∧
    (readAttrs wC4e).2 = some ⟨"N/A", "val", "val"⟩ := by
  decide

/-- C4 (amended): attribute extraction is best-effort — if any of the
three reads (placeholder, id, name) rejects, the block is abandoned, the
run still reports Success (with no attribute report) and exits with 0;
a missing attribute is reported as `"N/A"`, and an empty-string attribute
value is likewise reported as `"N/A"`: the two are distinct raw values
but are not distinguished in the report. -/
theorem c4_attr_read_best_effort (w : World) (el : String)
    (hstart : w.startOk = true) (hremote : w.remoteOk = true) (hnav : w.navOk = true)
    (hfound : (findSearchBar w selectors).2 = some el)
    (hattr : w.attrReadOk "placeholder" = false ∨ w.attrReadOk "id" = false ∨
             w.attrReadOk "name" = false)
    (hclose : w.deleteSessionOk = true) :
    (testAmazonSearchBar w).2.2 = Except.ok ⟨el, none⟩ ∧ exitCode w = 0 ∧
    jsOr none "N/A" = "N/A" ∧ jsOr (some "") "N/A" = "N/A" := by
  have hra : (readAttrs w).2 = none := by
    rcases hattr with h | h | h <;> simp only [readAttrs, h] <;>
      (repeat' split) <;> simp_all
  refine ⟨?_, ?_, rfl, by simp [jsOr]⟩ <;>
    simp [testAmazonSearchBar, runBody, runCleanup, startChromeDriver, stopChromeDriver,
      exitCode, hstart, hremote, hnav, hclose, hfound, hra]

/-- C4 witness: in `wC4f` the placeholder read rejects; the run still
succeeds with element `#twotabsearchtextbox` and no attribute report. -/
theorem c4_attr_read_best_effort_witness :
    (testAmazonSearchBar wC4f).2.2 =
      Except.ok ⟨"#twotabsearchtextbox", none⟩ ∧ exitCode wC4f = 0 ∧
    jsOr none "N/A" = "N/A" ∧ jsOr (some "") "N/A" = "N/A" :=
  c4_attr_read_best_effort wC4f "#twotabsearchtextbox" rfl rfl rfl (by decide)
    (Or.inl (by decide)) rfl

/-- C6: when no strategy yields an existing element, the find returns no
element, the guard throws the element-not-found error which becomes the
run's outcome (exit code 1), and the attempted selectors are exactly the
configured list — which is duplicate-free, so no strategy is attempted a
second time after failing once. -/
theorem c6_all_fail_element_not_found (w : World)
    (hstart : w.startOk = true) (hremote : w.remoteOk = true) (hnav : w.navOk = true)
    (hclose : w.deleteSessionOk = true)
    (hall : ∀ s ∈ selectors, attemptOutcome w s = none) :
    (findSearchBar w selectors).2 = none ∧
    triedOf (findSearchBar w selectors).1 = selectors ∧
    List.Nodup selectors ∧
    (testAmazonSearchBar w).2.2 = Except.error Err.elementNotFound ∧
    exitCode w = 1 := by
  have h := triedOf_findSearchBar_all_none w selectors hall
  refine ⟨h.2, h.1, by decide, ?_, ?_⟩ <;>
    simp [testAmazonSearchBar, runBody, runCleanup, startChromeDriver, stopChromeDriver,
      exitCode, hstart, hremote, hnav, hclose, h.2]

/-- C6 witness: in `wC6` every remote call resolves but no selector's
element ever exists within its wait budget. -/
theorem c6_all_fail_element_not_found_witness :
    (findSearchBar wC6 selectors).2 = none ∧
    triedOf (findSearchBar wC6 selectors).1 = selectors ∧
    List.Nodup selectors ∧
    (testAmazonSearchBar wC6).2.2 = Except.error Err.elementNotFound ∧
    exitCode wC6 = 1 :=
  c6_all_fail_element_not_found wC6 rfl rfl rfl rfl (by decide)

/-- C7: a rejection at any step of a strategy attempt — element
acquisition, existence wait, scroll, settle pause, or the existence
re-check — abandons only that strategy: the find on `sel :: rest`
records the failed attempt and then behaves exactly as the find on
`rest`, so the locate operation as a whole is never aborted. -/
theorem c7_exception_abandons_only_that_strategy (w : World) (sel : String)
    (rest : List String)
    (h : w.acquireOk sel = false ∨ w.waitForExistOk sel = false ∨
         w.scrollOk sel = false ∨ w.settleOk sel = false ∨ w.isExistingOk sel = false) :
    attemptOutcome w sel = none ∧
    findSearchBar w (sel :: rest) =
      (Event.tryStrategy sel :: (stepEvents w sel ++ (findSearchBar w rest).1),
       (findSearchBar w rest).2) :=
  have h0 := attemptOutcome_none_of_step_failure w sel h
  ⟨h0, findSearchBar_cons_none w sel rest h0⟩

/-- C7 witness: in `wC7` the selector `"#a"` rejects at acquisition;
the find continues with `"#b"`. -/
theorem c7_exception_abandons_only_that_strategy_witness :
    attemptOutcome wC7 "#a" = none ∧
    findSearchBar wC7 ("#a" :: ["#b"]) =
      (Event.tryStrategy "#a" :: (stepEvents wC7 "#a" ++ (findSearchBar wC7 ["#b"]).1),
       (findSearchBar wC7 ["#b"]).2) :=
  c7_exception_abandons_only_that_strategy wC7 "#a" ["#b"] (Or.inl (by decide))

/-- C10: in every run in which server start, session open and navigation
succeed, the trace begins with the fixed sequence: start call, 1000 ms
settle, session open, navigation, an unconditional 3000 ms pause, and the
popup probe — and no locator strategy attempt occurs anywhere in that
fixed sequence, so the 3000 ms pause always separates navigation
completion from the first strategy attempt, regardless of the oracles
for page readiness. -/
theorem c10_unconditional_pause_after_navigation (w : World)
    (h1 : w.startOk = true) (h2 : w.remoteOk = true) (h3 : w.navOk = true) :
    (∃ t, (testAmazonSearchBar w).1 =
      [Event.startCall, Event.pause 1000, Event.remoteInit, Event.navigate amazonUrl,
       Event.pause 3000, Event.popupCheck] ++ t) ∧
    (∀ s : String, Event.tryStrategy s ∉
      [Event.startCall, Event.pause 1000, Event.remoteInit, Event.navigate amazonUrl,
       Event.pause 3000, Event.popupCheck]) := by
  constructor
  · rw [testAmazonSearchBar_trace]
    have hb : ∃ t, (runBody w).1 =
        [Event.startCall, Event.pause 1000, Event.remoteInit, Event.navigate amazonUrl,
         Event.pause 3000, Event.popupCheck] ++ t := by
      cases h4 : (findSearchBar w selectors).2 with
      | none =>
        exact ⟨(findSearchBar w selectors).1,
          by simp [runBody, startChromeDriver, h1, h2, h3, h4]⟩
      | some el =>
        exact ⟨(findSearchBar w selectors).1 ++ [Event.visCheck] ++ (readAttrs w).1 ++
            [Event.pause 30000],
          by simp [runBody, startChromeDriver, h1, h2, h3, h4]⟩
    rcases hb with ⟨t, ht⟩
    exact ⟨t ++ (runCleanup w (runBody w).2.1 (runBody w).2.2.1).1,
      by rw [ht, List.append_assoc]⟩
  · intro s
    simp

/-- C10 witness: the fixed post-navigation pause at the all-ok world. -/
theorem c10_unconditional_pause_after_navigation_witness :
    (∃ t, (testAmazonSearchBar allOkWorld).1 =
      [Event.startCall, Event.pause 1000, Event.remoteInit, Event.navigate amazonUrl,
       Event.pause 3000, Event.popupCheck] ++ t) ∧
    (∀ s : String, Event.tryStrategy s ∉
      [Event.startCall, Event.pause 1000, Event.remoteInit, Event.navigate amazonUrl,
       Event.pause 3000, Event.popupCheck]) :=
  c10_unconditional_pause_after_navigation allOkWorld rfl rfl rfl

end AmazonTest
